import Mathlib

/-!
Verification development for the trtc-asr SDK (Python sources).

The definitions below are a shallow embedding of the two modules the
claims concern:

* `trtc_asr/signature.py` — the query-string builder (`SignatureParams`,
  `_to_map`, `_encode_params`, `build_query_string`,
  `build_query_string_with_signature`);
* `trtc_asr/speech_recognizer.py` — the streaming session (`_State`,
  `start`, `write`, `stop`, `_connect`, `_read_loop`, `_dispatch_event`).

Python `int` is embedded as `Int`, `str` as `String`.  Python compares
strings lexicographically by code point; `lexLtB` below implements that
order directly so that it evaluates by kernel reduction.  Python's
`sorted` on a list of pairs with pairwise-distinct first components is
characterised by "sorted with respect to the lexicographic pair order and
a permutation of the input"; `List.insertionSort` with the same order
satisfies exactly that characterisation and is used as the embedding of
`sorted`.  Nondeterministic inputs of the Python code (wall-clock
`time.time()`, `random.randint`, transport success or failure, the
outcome of awaiting the background read task) are passed as explicit
parameters.
-/

namespace TrtcAsr

/-! ### Code-point lexicographic string order (Python `str` comparison) -/

/-- Strict lexicographic order on character lists by code point. -/
def lexLtB : List Char → List Char → Bool
  | [], [] => false
  | [], _ :: _ => true
  | _ :: _, [] => false
  | a :: as, b :: bs => if a = b then lexLtB as bs else decide (a.toNat < b.toNat)

/-- Strict order on strings, as Python compares `str` values. -/
def strLtB (a b : String) : Bool := lexLtB a.data b.data

/-- Non-strict order on strings. -/
def strLeB (a b : String) : Bool := strLtB a b || a == b

/-- Python tuple comparison `(k1, v1) <= (k2, v2)` used by `sorted` on
`dict.items()`: compare keys first, then values. -/
def pairLeB (a b : String × String) : Bool :=
  strLtB a.1 b.1 || (a.1 == b.1 && strLeB a.2 b.2)

/-- The pair order as a relation, for `List.insertionSort`. -/
def pairLe (a b : String × String) : Prop := pairLeB a b = true

instance : DecidableRel pairLe := fun a b => by unfold pairLe; infer_instance

/-! ### Substring occurrence (used to state the secret-key claims) -/

/-- `startsWithList n h` holds when `n` is an initial segment of `h`. -/
def startsWithList : List Char → List Char → Bool
  | [], _ => true
  | _ :: _, [] => false
  | a :: as, b :: bs => a = b && startsWithList as bs

/-- `containsList n h` holds when `n` occurs contiguously inside `h`. -/
def containsList (needle : List Char) : List Char → Bool
  | [] => needle.isEmpty
  | c :: rest => startsWithList needle (c :: rest) || containsList needle rest

/-- `strOccurs needle hay`: `needle` occurs as a substring of `hay`. -/
def strOccurs (needle hay : String) : Bool := containsList needle.data hay.data

/-! ### `urllib.parse.quote(v, safe='')` -/

/-- Characters `quote` leaves unescaped: ASCII letters, digits, `_.-~`
(and nothing else, since `safe=''`). -/
def isSafeChar (c : Char) : Bool :=
  c.isAlpha || c.isDigit || c = '_' || c = '.' || c = '-' || c = '~'

/-- Upper-case hexadecimal digit for `n < 16`. -/
def hexDigit (n : Nat) : Char :=
  if n < 10 then Char.ofNat (48 + n) else Char.ofNat (55 + n)

/-- `%XX` escape of one byte. -/
def pctByte (b : Nat) : List Char := ['%', hexDigit (b / 16), hexDigit (b % 16)]

/-- UTF-8 encoding of one code point. -/
def utf8Bytes (n : Nat) : List Nat :=
  if n < 128 then [n]
  else if n < 2048 then [192 + n / 64, 128 + n % 64]
  else if n < 65536 then [224 + n / 4096, 128 + n / 64 % 64, 128 + n % 64]
  else [240 + n / 262144, 128 + n / 4096 % 64, 128 + n / 64 % 64, 128 + n % 64]

/-- One character of `quote` output: kept if safe, else each UTF-8 byte
percent-escaped. -/
def quoteChar (c : Char) : List Char :=
  if isSafeChar c then [c] else ((utf8Bytes c.toNat).map pctByte).flatten

/-- `urllib.parse.quote(s, safe='')`. -/
def quotePy (s : String) : String := ⟨(s.data.map quoteChar).flatten⟩

/-! ### `trtc_asr/signature.py` -/

/-- The `SignatureParams` dataclass.  The two `default_factory` fields
(`timestamp` from the clock, `nonce` from the RNG) are ordinary fields
here; the nondeterministic defaults are supplied by the caller of the
embedding. -/
structure SignatureParams where
  app_id : Int
  engine_model_type : String
  voice_id : String
  timestamp : Int
  expired : Int
  nonce : Int
  voice_format : Int
  need_vad : Int
  convert_num_mode : Int
  hotword_id : String
  customization_id : String
  filter_dirty : Int
  filter_modal : Int
  filter_punc : Int
  word_info : Int
  vad_silence_time : Int
  max_speak_time : Int
deriving DecidableEq

/-- `SignatureParams.__post_init__`: if `expired == 0`, set it to
`timestamp + 86400`. -/
def postInit (p : SignatureParams) : SignatureParams :=
  if p.expired = 0 then { p with expired := p.timestamp + 86400 } else p

/-- One conditional insertion `if cond: m[k] = v` of `_to_map`. -/
def optEntry (c : Bool) (k v : String) : List (String × String) :=
  if c then [(k, v)] else []

/-- `SignatureParams._to_map`: the dict of query parameters, as an
association list in insertion order (Python dicts preserve insertion
order; the keys inserted are pairwise distinct). -/
def SignatureParams.toMap (p : SignatureParams) : List (String × String) :=
  [("secretid", toString p.app_id),
   ("timestamp", toString p.timestamp),
   ("expired", toString p.expired),
   ("nonce", toString p.nonce),
   ("engine_model_type", p.engine_model_type),
   ("voice_id", p.voice_id),
   ("voice_format", toString p.voice_format),
   ("needvad", toString p.need_vad)]
  ++ optEntry (p.hotword_id != "") "hotword_id" p.hotword_id
  ++ optEntry (p.customization_id != "") "customization_id" p.customization_id
  ++ optEntry (p.filter_dirty != 0) "filter_dirty" (toString p.filter_dirty)
  ++ optEntry (p.filter_modal != 0) "filter_modal" (toString p.filter_modal)
  ++ optEntry (p.filter_punc != 0) "filter_punc" (toString p.filter_punc)
  ++ optEntry (p.convert_num_mode != 0) "convert_num_mode" (toString p.convert_num_mode)
  ++ optEntry (p.word_info != 0) "word_info" (toString p.word_info)
  ++ optEntry (p.vad_silence_time != 0) "vad_silence_time" (toString p.vad_silence_time)
  ++ optEntry (p.max_speak_time != 0) "max_speak_time" (toString p.max_speak_time)

/-- `sorted(params.items())`. -/
def sortParams (l : List (String × String)) : List (String × String) :=
  List.insertionSort pairLe l

/-- One `key=quote(value)` fragment of `_encode_params`. -/
def encodePair (kv : String × String) : String := kv.1 ++ "=" ++ quotePy kv.2

/-- `_encode_params`: `'&'.join(f"k={quote(v)}" for k, v in sorted(params.items()))`. -/
def encodeParams (l : List (String × String)) : String :=
  String.intercalate "&" ((sortParams l).map encodePair)

/-- `SignatureParams.build_query_string`. -/
def SignatureParams.buildQueryString (p : SignatureParams) : String :=
  encodeParams p.toMap

/-- The parameter dict after `params["signature"] = user_sig`
(`"signature"` is not a key of `_to_map`, so this is an insertion at the
end). -/
def signedMap (p : SignatureParams) (userSig : String) : List (String × String) :=
  p.toMap ++ [("signature", userSig)]

/-- `SignatureParams.build_query_string_with_signature`. -/
def SignatureParams.buildQueryStringWithSignature
    (p : SignatureParams) (userSig : String) : String :=
  encodeParams (signedMap p userSig)

/-- Every key `_to_map` can insert, in insertion order. -/
def allMapKeys : List String :=
  ["secretid", "timestamp", "expired", "nonce", "engine_model_type",
   "voice_id", "voice_format", "needvad", "hotword_id", "customization_id",
   "filter_dirty", "filter_modal", "filter_punc", "convert_num_mode",
   "word_info", "vad_silence_time", "max_speak_time"]

/-- `allMapKeys` followed by the `signature` key. -/
def allKeys : List String := allMapKeys ++ ["signature"]

/-! ### `trtc_asr/credential.py` and the recognizer's parameter build -/

/-- The `Credential` dataclass. -/
structure Credential where
  app_id : Int
  sdk_app_id : Int
  secret_key : String
  user_sig : String
deriving DecidableEq

/-- The recognizer configuration fields that feed `_connect`'s
`SignatureParams(...)` construction. -/
structure RecognizerConfig where
  engine_model_type : String
  voice_format : Int
  need_vad : Int
  convert_num_mode : Int
  hotword_id : String
  customization_id : String
  filter_dirty : Int
  filter_modal : Int
  filter_punc : Int
  word_info : Int
  vad_silence_time : Int
  max_speak_time : Int
deriving DecidableEq

/-- The `SignatureParams(...)` value `_connect` builds (lines 301-316 of
`speech_recognizer.py`): fields from the credential's `app_id` and the
recognizer configuration; `timestamp` and `nonce` come from the clock and
the RNG (`ts`, `nonce` here); `expired` is left at its zero default and
fixed up by `__post_init__`. -/
def connectParams (cred : Credential) (cfg : RecognizerConfig)
    (voiceId : String) (ts nonce : Int) : SignatureParams :=
  postInit
    { app_id := cred.app_id
      engine_model_type := cfg.engine_model_type
      voice_id := voiceId
      timestamp := ts
      expired := 0
      nonce := nonce
      voice_format := cfg.voice_format
      need_vad := cfg.need_vad
      convert_num_mode := cfg.convert_num_mode
      hotword_id := cfg.hotword_id
      customization_id := cfg.customization_id
      filter_dirty := cfg.filter_dirty
      filter_modal := cfg.filter_modal
      filter_punc := cfg.filter_punc
      word_info := cfg.word_info
      vad_silence_time := cfg.vad_silence_time
      max_speak_time := cfg.max_speak_time }

/-! ### `trtc_asr/errors.py` -/

def ERR_CONNECT_FAILED : Int := 1002
def ERR_WRITE_FAILED : Int := 1003
def ERR_READ_FAILED : Int := 1004
def ERR_AUTH_FAILED : Int := 1005
def ERR_ALREADY_STARTED : Int := 1008
def ERR_NOT_STARTED : Int := 1009

/-! ### `trtc_asr/speech_recognizer.py` — state machine -/

/-- The `_State` enumeration. -/
inductive SessionState
  | idle
  | starting
  | running
  | stopping
  | stopped
deriving DecidableEq

/-- The session state a claim can observe: `_state`, whether `_ws` is
non-`None`, whether `_read_task` is non-`None`. -/
structure Recognizer where
  state : SessionState
  wsPresent : Bool
  readTaskPresent : Bool
deriving DecidableEq

/-- A fresh recognizer (`__init__`). -/
def initialRecognizer : Recognizer :=
  { state := .idle, wsPresent := false, readTaskPresent := false }

/-- How `_connect` can turn out: success; `gen_user_sig` raises (wrapped
as `ASRError(ERR_AUTH_FAILED, ...)` inside `_connect`); or the WebSocket
connect raises a non-`ASRError` exception. -/
inductive ConnectOutcome
  | ok
  | sigFail
  | connectFail
deriving DecidableEq

/-- `SpeechRecognizer.start`.  Result: the recognizer state afterwards
and `none` on normal return, `some code` when `ASRError(code, ...)` is
raised.  On the failure paths `start` resets `_state` to IDLE and
re-raises the `ASRError` (or wraps other exceptions as
`ERR_CONNECT_FAILED`); `_ws` is only assigned on success and the read
task is only spawned on success. -/
def Recognizer.start (r : Recognizer) (outcome : ConnectOutcome) :
    Recognizer × Option Int :=
  if r.state ≠ .idle then (r, some ERR_ALREADY_STARTED)
  else
    match outcome with
    | .ok => ({ r with state := .running, wsPresent := true, readTaskPresent := true }, none)
    | .sigFail => ({ r with state := .idle }, some ERR_AUTH_FAILED)
    | .connectFail => ({ r with state := .idle }, some ERR_CONNECT_FAILED)

/-- `SpeechRecognizer.write`.  `sendOk` is whether the transport send
succeeds within the write timeout. -/
def Recognizer.write (r : Recognizer) (sendOk : Bool) : Recognizer × Option Int :=
  if r.state ≠ .running then (r, some ERR_NOT_STARTED)
  else if r.wsPresent = false then (r, some ERR_NOT_STARTED)
  else if sendOk = false then (r, some ERR_WRITE_FAILED)
  else (r, none)

/-- `SpeechRecognizer.stop`.  `sendOk` is whether the end-of-stream send
succeeds; `readDoneInTime` is whether awaiting the read task finishes
within the 10-second bound.  When the read task completes, its
`finally` block has run `_close()` (so `_ws` is `None`); on timeout
`stop` runs `_close()` itself. -/
def Recognizer.stop (r : Recognizer) (sendOk readDoneInTime : Bool) :
    Recognizer × Option Int :=
  if r.state ≠ .running then (r, some ERR_NOT_STARTED)
  else
    let r1 : Recognizer := { r with state := .stopping }
    if r1.wsPresent = false then
      ({ r1 with state := .stopped }, some ERR_NOT_STARTED)
    else if sendOk = false then
      ({ r1 with wsPresent := false, state := .stopped }, some ERR_WRITE_FAILED)
    else if r1.readTaskPresent then
      if readDoneInTime then
        ({ r1 with wsPresent := false, state := .stopped }, none)
      else
        ({ r1 with wsPresent := false, state := .stopped }, none)
    else
      ({ r1 with state := .stopped }, none)

/-! ### `trtc_asr/speech_recognizer.py` — event model and read loop -/

/-- The `WordInfo` dataclass. -/
structure WordInfo where
  word : String
  start_time : Int
  end_time : Int
  stable_flag : Int
deriving DecidableEq

/-- The `Result` dataclass. -/
structure RecogResult where
  slice_type : Int
  index : Int
  start_time : Int
  end_time : Int
  voice_text_str : String
  word_size : Int
  word_list : List WordInfo
deriving DecidableEq

/-- The `SpeechRecognitionResponse` dataclass. -/
structure Response where
  code : Int
  message : String
  voice_id : String
  message_id : String
  final : Int
  result : RecogResult
deriving DecidableEq

/-- One listener invocation made by the read loop.  `onFail code`
records the `code` of the `ASRError` passed to `on_fail`. -/
inductive Callback
  | onRecognitionStart
  | onSentenceBegin
  | onRecognitionResultChange
  | onSentenceEnd
  | onRecognitionComplete
  | onFail (code : Int)
deriving DecidableEq

/-- One inbound WebSocket message, at the decoding boundary:
`malformed` when `json.loads` raises, `event resp` when it decodes to
the response `resp`. -/
inductive InboundMsg
  | malformed
  | event (resp : Response)
deriving DecidableEq

/-- `SpeechRecognizer._dispatch_event`: the listener invocations the
dispatcher makes for one response. -/
def dispatchEvent (resp : Response) : List Callback :=
  if resp.result.slice_type = 0 then [.onSentenceBegin]
  else if resp.result.slice_type = 1 then [.onRecognitionResultChange]
  else if resp.result.slice_type = 2 then [.onSentenceEnd]
  else if resp.final = 1 then []
  else [.onRecognitionStart]

/-- One decoded-event step of `_read_loop`: the listener invocations and
whether the loop returns after this event. -/
def processEvent (resp : Response) : List Callback × Bool :=
  if resp.code ≠ 0 then ([.onFail resp.code], true)
  else
    let cbs := dispatchEvent resp
    if resp.final = 1 then (cbs ++ [.onRecognitionComplete], true)
    else (cbs, false)

/-- `SpeechRecognizer._read_loop` over a finite inbound message
sequence: the listener invocations in order.  A malformed message
reports one `ERR_READ_FAILED` failure and continues; a decoded event is
handled by `processEvent`, and the loop returns when that step says so. -/
def readLoop : List InboundMsg → List Callback
  | [] => []
  | .malformed :: rest => .onFail ERR_READ_FAILED :: readLoop rest
  | .event resp :: rest =>
    let step := processEvent resp
    if step.2 then step.1 else step.1 ++ readLoop rest

/-! ### Concrete sample values (used by witnesses and counterexamples) -/

def sampleParams : SignatureParams :=
  { app_id := 1300403317
    engine_model_type := "16k_zh"
    voice_id := "test-voice-001"
    timestamp := 1700000000
    expired := 1700086400
    nonce := 12345
    voice_format := 1
    need_vad := 1
    convert_num_mode := 1
    hotword_id := ""
    customization_id := ""
    filter_dirty := 0
    filter_modal := 0
    filter_punc := 0
    word_info := 0
    vad_silence_time := 0
    max_speak_time := 0 }

def sampleParamsNoConvert : SignatureParams :=
  { sampleParams with convert_num_mode := 0 }

def sampleResult : RecogResult :=
  { slice_type := 2, index := 0, start_time := 0, end_time := 120
    voice_text_str := "hello", word_size := 0, word_list := [] }

def sampleFinalResp : Response :=
  { code := 0, message := "", voice_id := "v1", message_id := "m1"
    final := 1, result := sampleResult }

/-- The recognizer state right after a successful `start()`. -/
def runningRec : Recognizer :=
  { state := .running, wsPresent := true, readTaskPresent := true }

def sampleCredential : Credential :=
  { app_id := 1300403317, sdk_app_id := 1400000000
    secret_key := "shh", user_sig := "sig" }

def sampleConfig : RecognizerConfig :=
  { engine_model_type := "16k_zh"
    voice_format := 1, need_vad := 1, convert_num_mode := 1
    hotword_id := "", customization_id := ""
    filter_dirty := 0, filter_modal := 0, filter_punc := 0
    word_info := 0, vad_silence_time := 0, max_speak_time := 0 }

/-! ## Theorems -/

/-! ### Order lemmas for the code-point string order -/

theorem lexLtB_irrefl : ∀ l : List Char, lexLtB l l = false
  | [] => rfl
  | a :: as => by simp [lexLtB, lexLtB_irrefl as]

theorem lexLtB_trans : ∀ {a b c : List Char},
    lexLtB a b = true → lexLtB b c = true → lexLtB a c = true
  | [], [], _, h1, _ => by simp [lexLtB] at h1
  | [], _ :: _, [], _, h2 => by simp [lexLtB] at h2
  | [], _ :: _, _ :: _, _, _ => rfl
  | _ :: _, [], _, h1, _ => by simp [lexLtB] at h1
  | _ :: _, _ :: _, [], _, h2 => by simp [lexLtB] at h2
  | x :: xs, y :: ys, z :: zs, h1, h2 => by
    simp only [lexLtB] at h1 h2 ⊢
    by_cases hxy : x = y
    · subst hxy
      simp only [if_pos rfl] at h1
      by_cases hxz : x = z
      · subst hxz
        simp only [if_pos rfl] at h2 ⊢
        exact lexLtB_trans h1 h2
      · simp only [if_neg hxz] at h2 ⊢
        exact h2
    · simp only [if_neg hxy] at h1
      have hx : x.toNat < y.toNat := of_decide_eq_true h1
      by_cases hyz : y = z
      · subst hyz
        simp only [if_neg hxy]
        exact h1
      · simp only [if_neg hyz] at h2
        have hy : y.toNat < z.toNat := of_decide_eq_true h2
        have hxz : x ≠ z := by
          intro he
          subst he
          omega
        simp only [if_neg hxz]
        exact decide_eq_true (Nat.lt_trans hx hy)

theorem lexLtB_trichotomy : ∀ a b : List Char,
    lexLtB a b = true ∨ a = b ∨ lexLtB b a = true
  | [], [] => Or.inr (Or.inl rfl)
  | [], _ :: _ => Or.inl rfl
  | _ :: _, [] => Or.inr (Or.inr rfl)
  | x :: xs, y :: ys => by
    by_cases hxy : x = y
    · subst hxy
      rcases lexLtB_trichotomy xs ys with h | h | h
      · exact Or.inl (by simp [lexLtB, h])
      · exact Or.inr (Or.inl (by rw [h]))
      · exact Or.inr (Or.inr (by simp [lexLtB, h]))
    · have hne : x.toNat ≠ y.toNat := fun he => hxy (Char.ext (UInt32.ext he))
      rcases Nat.lt_or_ge x.toNat y.toNat with h | h
      · exact Or.inl (by simp [lexLtB, if_neg hxy, h])
      · have h' : y.toNat < x.toNat := Nat.lt_of_le_of_ne h fun he => hne he.symm
        exact Or.inr (Or.inr (by simp [lexLtB, if_neg (Ne.symm hxy), h']))

theorem strLtB_irrefl (a : String) : strLtB a a = false := lexLtB_irrefl _

theorem strLtB_trans {a b c : String} (h1 : strLtB a b = true)
    (h2 : strLtB b c = true) : strLtB a c = true := lexLtB_trans h1 h2

theorem strLtB_trichotomy (a b : String) :
    strLtB a b = true ∨ a = b ∨ strLtB b a = true := by
  rcases lexLtB_trichotomy a.data b.data with h | h | h
  · exact Or.inl h
  · refine Or.inr (Or.inl ?_)
    cases a
    cases b
    exact congrArg String.mk h
  · exact Or.inr (Or.inr h)

theorem pairLe_iff {a b : String × String} :
    pairLe a b ↔
      strLtB a.1 b.1 = true ∨ (a.1 = b.1 ∧ (strLtB a.2 b.2 = true ∨ a.2 = b.2)) := by
  simp [pairLe, pairLeB, strLeB, Bool.or_eq_true, Bool.and_eq_true, beq_iff_eq]

theorem pairLe_total : ∀ a b : String × String, pairLe a b ∨ pairLe b a := by
  intro a b
  rcases strLtB_trichotomy a.1 b.1 with h | h | h
  · exact Or.inl (pairLe_iff.mpr (Or.inl h))
  · rcases strLtB_trichotomy a.2 b.2 with h2 | h2 | h2
    · exact Or.inl (pairLe_iff.mpr (Or.inr ⟨h, Or.inl h2⟩))
    · exact Or.inl (pairLe_iff.mpr (Or.inr ⟨h, Or.inr h2⟩))
    · exact Or.inr (pairLe_iff.mpr (Or.inr ⟨h.symm, Or.inl h2⟩))
  · exact Or.inr (pairLe_iff.mpr (Or.inl h))

theorem pairLe_trans : ∀ a b c : String × String,
    pairLe a b → pairLe b c → pairLe a c := by
  intro a b c hab hbc
  rcases pairLe_iff.mp hab with h1 | ⟨he1, hv1⟩
  · rcases pairLe_iff.mp hbc with h2 | ⟨he2, _⟩
    · exact pairLe_iff.mpr (Or.inl (strLtB_trans h1 h2))
    · exact pairLe_iff.mpr (Or.inl (he2 ▸ h1))
  · rcases pairLe_iff.mp hbc with h2 | ⟨he2, hv2⟩
    · exact pairLe_iff.mpr (Or.inl (he1 ▸ h2))
    · refine pairLe_iff.mpr (Or.inr ⟨he1.trans he2, ?_⟩)
      rcases hv1 with hv1 | hv1
      · rcases hv2 with hv2 | hv2
        · exact Or.inl (strLtB_trans hv1 hv2)
        · exact Or.inl (hv2 ▸ hv1)
      · rcases hv2 with hv2 | hv2
        · exact Or.inl (hv1 ▸ hv2)
        · exact Or.inr (hv1.trans hv2)

/-! ### Properties of `sortParams` -/

theorem sortParams_sorted (l : List (String × String)) :
    (sortParams l).Pairwise pairLe :=
  @List.sorted_insertionSort _ pairLe _ ⟨pairLe_total⟩ ⟨pairLe_trans⟩ l

theorem sortParams_perm (l : List (String × String)) :
    (sortParams l).Perm l :=
  List.perm_insertionSort pairLe l

/-! ### The keys of `_to_map` are pairwise distinct -/

theorem optEntry_fst_sublist (c : Bool) (k v : String) :
    ((optEntry c k v).map Prod.fst).Sublist [k] := by
  cases c <;> simp [optEntry]

theorem toMap_fst_sublist (p : SignatureParams) :
    (p.toMap.map Prod.fst).Sublist allMapKeys := by
  show (p.toMap.map Prod.fst).Sublist
    (["secretid", "timestamp", "expired", "nonce", "engine_model_type",
      "voice_id", "voice_format", "needvad"] ++
     (["hotword_id"] ++ (["customization_id"] ++ (["filter_dirty"] ++
      (["filter_modal"] ++ (["filter_punc"] ++ (["convert_num_mode"] ++
       (["word_info"] ++ (["vad_silence_time"] ++ ["max_speak_time"])))))))))
  simp only [SignatureParams.toMap, List.map_append, List.map_cons, List.map_nil,
    List.append_assoc]
  refine List.Sublist.append_left ?_ _
  refine (optEntry_fst_sublist _ _ _).append ?_
  refine (optEntry_fst_sublist _ _ _).append ?_
  refine (optEntry_fst_sublist _ _ _).append ?_
  refine (optEntry_fst_sublist _ _ _).append ?_
  refine (optEntry_fst_sublist _ _ _).append ?_
  refine (optEntry_fst_sublist _ _ _).append ?_
  refine (optEntry_fst_sublist _ _ _).append ?_
  exact (optEntry_fst_sublist _ _ _).append (optEntry_fst_sublist _ _ _)

theorem signedMap_fst_sublist (p : SignatureParams) (sig : String) :
    ((signedMap p sig).map Prod.fst).Sublist allKeys := by
  simp only [signedMap, List.map_append, List.map_cons, List.map_nil]
  exact (toMap_fst_sublist p).append (List.Sublist.refl _)

theorem allKeys_nodup : allKeys.Pairwise (fun a b => a ≠ b) := by decide

theorem toMap_fst_nodup (p : SignatureParams) :
    (p.toMap.map Prod.fst).Pairwise (fun a b => a ≠ b) :=
  List.Pairwise.sublist
    ((toMap_fst_sublist p).trans (List.sublist_append_left _ _)) allKeys_nodup

theorem signedMap_fst_nodup (p : SignatureParams) (sig : String) :
    ((signedMap p sig).map Prod.fst).Pairwise (fun a b => a ≠ b) :=
  List.Pairwise.sublist (signedMap_fst_sublist p sig) allKeys_nodup

/-! ### Keys of the sorted parameter list are strictly ascending -/

theorem pairLe_strict {a b : String × String} (h : pairLe a b)
    (hne : a.1 ≠ b.1) : strLtB a.1 b.1 = true := by
  rcases pairLe_iff.mp h with h1 | ⟨he, _⟩
  · exact h1
  · exact absurd he hne

theorem sortParams_keys_strict {l : List (String × String)}
    (h : (l.map Prod.fst).Pairwise (fun a b => a ≠ b)) :
    ((sortParams l).map Prod.fst).Pairwise (fun a b => strLtB a b = true) := by
  have hs : (sortParams l).Pairwise pairLe := sortParams_sorted l
  have hne0 : l.Pairwise (fun a b : String × String => a.1 ≠ b.1) :=
    List.pairwise_map.mp h
  have hne : (sortParams l).Pairwise (fun a b : String × String => a.1 ≠ b.1) :=
    ((sortParams_perm l).pairwise_iff fun hxy => Ne.symm hxy).mpr hne0
  refine List.pairwise_map.mpr ?_
  exact (hs.and hne).imp fun hab => pairLe_strict hab.1 hab.2

theorem mem_sortParams_fst {l : List (String × String)} {k : String} :
    k ∈ (sortParams l).map Prod.fst ↔ k ∈ l.map Prod.fst :=
  (List.Perm.map Prod.fst (sortParams_perm l)).mem_iff

/-! ### The last element of a strictly sorted list -/

theorem pairwise_rel_getLast {α : Type} {r : α → α → Prop} :
    ∀ {l : List α} {x y : α}, l.Pairwise r → x ∈ l → l.getLast? = some y →
      x = y ∨ r x y := by
  intro l
  induction l with
  | nil => intro x y _ hx _; cases hx
  | cons a t ih =>
    intro x y hp hx hl
    cases t with
    | nil =>
      rcases List.mem_singleton.mp hx with rfl
      cases Option.some.injEq y x ▸ hl.symm
      exact Or.inl (by injection hl)
    | cons b t2 =>
      rw [List.getLast?_cons_cons] at hl
      rcases List.mem_cons.mp hx with rfl | hx2
      · have hy : y ∈ b :: t2 := List.mem_of_mem_getLast? hl
        exact Or.inr ((List.pairwise_cons.mp hp).1 y hy)
      · exact ih (List.pairwise_cons.mp hp).2 hx2 hl

/-! ### Lookup lemmas for `_to_map` -/

theorem lookup_append (k : String) (l1 l2 : List (String × String)) :
    List.lookup k (l1 ++ l2) = (List.lookup k l1).or (List.lookup k l2) := by
  induction l1 with
  | nil => simp
  | cons a t ih =>
    obtain ⟨k1, v1⟩ := a
    by_cases h : k == k1
    · simp [List.lookup, h]
    · simp only [Bool.not_eq_true] at h
      simp [List.lookup, h, ih]

theorem lookup_optEntry (k k1 v : String) (c : Bool) :
    List.lookup k (optEntry c k1 v) = if c && (k == k1) then some v else none := by
  cases c <;> cases hk : (k == k1) <;> simp [optEntry, List.lookup, hk]

/-! ### Claim C3 -/

/-- C3: for every `SignatureParams` and every token, both
`build_query_string` and `build_query_string_with_signature` produce a
`&`-joined sequence of `key=percent-encoded-value` pairs whose keys are
in strictly ascending code-point (ASCII) order, and the signed variant
contains the key `signature` in its sorted alphabetic position — it is
in the key sequence but never its last element. -/
theorem build_query_string_sorted (p : SignatureParams) (userSig : String) :
    p.buildQueryString
        = String.intercalate "&" ((sortParams p.toMap).map encodePair)
    ∧ ((sortParams p.toMap).map Prod.fst).Pairwise
        (fun a b => strLtB a b = true)
    ∧ p.buildQueryStringWithSignature userSig
        = String.intercalate "&" ((sortParams (signedMap p userSig)).map encodePair)
    ∧ ((sortParams (signedMap p userSig)).map Prod.fst).Pairwise
        (fun a b => strLtB a b = true)
    ∧ "signature" ∈ (sortParams (signedMap p userSig)).map Prod.fst
    ∧ ((sortParams (signedMap p userSig)).map Prod.fst).getLast?
        ≠ some "signature" := by
  refine ⟨rfl, sortParams_keys_strict (toMap_fst_nodup p), rfl,
    sortParams_keys_strict (signedMap_fst_nodup p userSig), ?_, ?_⟩
  · exact mem_sortParams_fst.mpr (by simp [signedMap])
  · intro hlast
    have hts : "timestamp" ∈ (sortParams (signedMap p userSig)).map Prod.fst :=
      mem_sortParams_fst.mpr (by simp [signedMap, SignatureParams.toMap])
    rcases pairwise_rel_getLast
        (sortParams_keys_strict (signedMap_fst_nodup p userSig)) hts hlast with
      h | h
    · exact absurd h (by decide)
    · exact absurd h (by decide)

/-! ### Claim C4 -/

/-- C4 is false as stated: the universally quantified "the secret key
value is never a substring of the output" fails, because a secret key
that happens to coincide with literal query text — here the key name
`timestamp` — always occurs as a substring of `build_query_string`'s
output. -/
theorem secret_key_substring_counterexample :
    strOccurs "timestamp" sampleParams.buildQueryString = true := by decide

/-- C4 amended: the output of `build_query_string` does not depend on
the secret key at all — the parameters `_connect` builds read only the
credential's `app_id`, so two runs differing only in the secret key
build identical `SignatureParams` and identical query strings. -/
theorem build_query_string_secret_independent (cred : Credential)
    (newKey : String) (cfg : RecognizerConfig) (voiceId : String)
    (ts nonce : Int) :
    connectParams { cred with secret_key := newKey } cfg voiceId ts nonce
        = connectParams cred cfg voiceId ts nonce
    ∧ (connectParams { cred with secret_key := newKey } cfg
          voiceId ts nonce).buildQueryString
        = (connectParams cred cfg voiceId ts nonce).buildQueryString :=
  ⟨rfl, rfl⟩

/-! ### Claim C8 -/

/-- C8 is false as stated: the number-conversion mode is not always
present.  With `convert_num_mode = 0` the key `convert_num_mode` is
absent from the serialized query string (the code emits it inside the
conditional block, like the optional fields), while with the default
value 1 it is present. -/
theorem convert_num_mode_counterexample :
    sampleParamsNoConvert.convert_num_mode = 0
    ∧ strOccurs "convert_num_mode" sampleParamsNoConvert.buildQueryString = false
    ∧ strOccurs "convert_num_mode" sampleParams.buildQueryString = true := by
  refine ⟨rfl, ?_, ?_⟩ <;> decide

/-- C8 amended: each of the eight optional fields appears as a key of
the parameter map if and only if its value is non-zero/non-empty, and
then carries the exact expected value; the eight required fields are
always present with their exact values; the number-conversion mode is
emitted conditionally as well — present with its exact value if and
only if it is non-zero.  The serialized query string is exactly the
encoding of this map. -/
theorem toMap_key_presence (p : SignatureParams) :
    List.lookup "secretid" p.toMap = some (toString p.app_id)
    ∧ List.lookup "timestamp" p.toMap = some (toString p.timestamp)
    ∧ List.lookup "expired" p.toMap = some (toString p.expired)
    ∧ List.lookup "nonce" p.toMap = some (toString p.nonce)
    ∧ List.lookup "engine_model_type" p.toMap = some p.engine_model_type
    ∧ List.lookup "voice_id" p.toMap = some p.voice_id
    ∧ List.lookup "voice_format" p.toMap = some (toString p.voice_format)
    ∧ List.lookup "needvad" p.toMap = some (toString p.need_vad)
    ∧ List.lookup "hotword_id" p.toMap
        = (if p.hotword_id = "" then none else some p.hotword_id)
    ∧ List.lookup "customization_id" p.toMap
        = (if p.customization_id = "" then none else some p.customization_id)
    ∧ List.lookup "filter_dirty" p.toMap
        = (if p.filter_dirty = 0 then none else some (toString p.filter_dirty))
    ∧ List.lookup "filter_modal" p.toMap
        = (if p.filter_modal = 0 then none else some (toString p.filter_modal))
    ∧ List.lookup "filter_punc" p.toMap
        = (if p.filter_punc = 0 then none else some (toString p.filter_punc))
    ∧ List.lookup "convert_num_mode" p.toMap
        = (if p.convert_num_mode = 0 then none
           else some (toString p.convert_num_mode))
    ∧ List.lookup "word_info" p.toMap
        = (if p.word_info = 0 then none else some (toString p.word_info))
    ∧ List.lookup "vad_silence_time" p.toMap
        = (if p.vad_silence_time = 0 then none
           else some (toString p.vad_silence_time))
    ∧ List.lookup "max_speak_time" p.toMap
        = (if p.max_speak_time = 0 then none
           else some (toString p.max_speak_time))
    ∧ p.buildQueryString = encodeParams p.toMap := by
  refine ⟨?_, ?_, ?_, ?_, ?_, ?_, ?_, ?_, ?_, ?_, ?_, ?_, ?_, ?_, ?_, ?_, ?_,
    rfl⟩ <;>
    simp [SignatureParams.toMap, lookup_append, lookup_optEntry, List.lookup]

/-! ### Claim C9 -/

/-- C9: after construction (`__post_init__`), a zero `expired` becomes
exactly `timestamp + 86400`, and an explicitly supplied non-zero
`expired` is kept unchanged. -/
theorem post_init_expired (p : SignatureParams) :
    (p.expired = 0 → (postInit p).expired = p.timestamp + 86400)
    ∧ (p.expired ≠ 0 → (postInit p).expired = p.expired) := by
  constructor <;> intro h <;> simp [postInit, h]

/-- Witness for C9 at a concrete parameter value. -/
theorem post_init_expired_witness :
    ({ sampleParams with expired := 0 } : SignatureParams).expired = 0
    ∧ (postInit { sampleParams with expired := 0 }).expired
        = ({ sampleParams with expired := 0 } : SignatureParams).timestamp
            + 86400 :=
  ⟨rfl, (post_init_expired { sampleParams with expired := 0 }).1 rfl⟩

/-! ### Claim C1 -/

/-- C1 is false as stated: `stop()` invoked before `start()` (state
IDLE, connection handle absent) raises NotStarted and leaves the state
IDLE — it does not reach STOPPED. -/
theorem stop_idle_counterexample :
    (initialRecognizer.stop true true).1.state = SessionState.idle
    ∧ (initialRecognizer.stop true true).2 = some ERR_NOT_STARTED
    ∧ (initialRecognizer.stop true true).1.state ≠ SessionState.stopped := by
  decide

/-- C1 amended: `stop()` invoked in state RUNNING always ends in STOPPED
with the connection handle null (given that the read task is present
whenever the connection is, which `start()` establishes before entering
RUNNING): with the connection handle absent it raises NotStarted yet
still ends STOPPED, and with a failing end-of-stream send it raises
WriteFailed yet still ends STOPPED with the connection closed.  Invoked
in any other state, `stop()` raises NotStarted and leaves the state
unchanged. -/
theorem stop_terminal (r : Recognizer) (sendOk readDone : Bool)
    (htask : r.wsPresent = true → r.readTaskPresent = true) :
    (r.state = .running →
      (r.stop sendOk readDone).1.state = .stopped
      ∧ (r.stop sendOk readDone).1.wsPresent = false
      ∧ (r.wsPresent = false →
          (r.stop sendOk readDone).2 = some ERR_NOT_STARTED)
      ∧ (r.wsPresent = true → sendOk = false →
          (r.stop sendOk readDone).2 = some ERR_WRITE_FAILED))
    ∧ (r.state ≠ .running → r.stop sendOk readDone = (r, some ERR_NOT_STARTED)) := by
  obtain ⟨st, ws, rt⟩ := r
  cases st <;> cases ws <;> cases rt <;> cases sendOk <;> cases readDone <;>
    simp_all [Recognizer.stop]

/-- Witness for the amended C1 at concrete states: both failure shapes
and the success shape end STOPPED with the handle null. -/
theorem stop_terminal_witness :
    runningRec.state = SessionState.running
    ∧ (runningRec.stop true true).1.state = SessionState.stopped
    ∧ (runningRec.stop true true).1.wsPresent = false
    ∧ (runningRec.stop false true).2 = some ERR_WRITE_FAILED
    ∧ (runningRec.stop false true).1.state = SessionState.stopped :=
  ⟨rfl,
   ((stop_terminal runningRec true true (fun _ => rfl)).1 rfl).1,
   ((stop_terminal runningRec true true (fun _ => rfl)).1 rfl).2.1,
   ((stop_terminal runningRec false true (fun _ => rfl)).1 rfl).2.2.2 rfl rfl,
   ((stop_terminal runningRec false true (fun _ => rfl)).1 rfl).1⟩

/-! ### Claim C5 -/

/-- C5: `write()` in any state other than RUNNING (in particular before
`start()`) raises NotStarted without changing the state, and `start()`
in any state other than IDLE raises AlreadyStarted without changing the
state; in particular a second `start()` after a successful one raises
AlreadyStarted. -/
theorem precondition_guards (r : Recognizer) (sendOk : Bool)
    (outcome outcome2 : ConnectOutcome) :
    (r.state ≠ .running → r.write sendOk = (r, some ERR_NOT_STARTED))
    ∧ (r.state ≠ .idle → r.start outcome = (r, some ERR_ALREADY_STARTED))
    ∧ initialRecognizer.write sendOk
        = (initialRecognizer, some ERR_NOT_STARTED)
    ∧ (r.state = .idle →
        (r.start .ok).1.start outcome2
          = ((r.start .ok).1, some ERR_ALREADY_STARTED)) := by
  obtain ⟨st, ws, rt⟩ := r
  refine ⟨fun h => ?_, fun h => ?_, ?_, fun h => ?_⟩
  · simp [Recognizer.write, h]
  · simp [Recognizer.start, h]
  · simp [Recognizer.write, initialRecognizer, ERR_NOT_STARTED]
  · simp only at h
    subst h
    simp [Recognizer.start]

/-- Witness for C5: `write` before `start` and a second `start` both
fail on the fresh recognizer. -/
theorem precondition_guards_witness :
    initialRecognizer.state ≠ SessionState.running
    ∧ initialRecognizer.write true
        = (initialRecognizer, some ERR_NOT_STARTED)
    ∧ initialRecognizer.state = SessionState.idle
    ∧ (initialRecognizer.start .ok).1.start .ok
        = ((initialRecognizer.start .ok).1, some ERR_ALREADY_STARTED) :=
  ⟨by decide,
   (precondition_guards initialRecognizer true .ok .ok).1 (by decide),
   rfl,
   (precondition_guards initialRecognizer true .ok .ok).2.2.2 rfl⟩

/-! ### Claim C6 -/

/-- C6: if `start()` fails to establish the connection, the session
returns to IDLE, the error is propagated (AUTH_FAILED for a signing
failure, CONNECT_FAILED for a transport connect failure), and neither a
read task nor a connection handle appears. -/
theorem start_failure (r : Recognizer) (o : ConnectOutcome)
    (hidle : r.state = .idle) (hfail : o ≠ .ok) :
    (r.start o).1.state = .idle
    ∧ (r.start o).1.readTaskPresent = r.readTaskPresent
    ∧ (r.start o).1.wsPresent = r.wsPresent
    ∧ (o = .sigFail → (r.start o).2 = some ERR_AUTH_FAILED)
    ∧ (o = .connectFail → (r.start o).2 = some ERR_CONNECT_FAILED)
    ∧ (r.start o).2 ≠ none := by
  cases o <;> simp_all [Recognizer.start]

/-- Witness for C6 at the fresh recognizer with a signing failure. -/
theorem start_failure_witness :
    initialRecognizer.state = SessionState.idle
    ∧ ConnectOutcome.sigFail ≠ ConnectOutcome.ok
    ∧ (initialRecognizer.start .sigFail).1.state = SessionState.idle
    ∧ (initialRecognizer.start .sigFail).1.readTaskPresent
        = initialRecognizer.readTaskPresent
    ∧ (initialRecognizer.start .sigFail).2 = some ERR_AUTH_FAILED :=
  ⟨rfl, by decide,
   (start_failure initialRecognizer .sigFail rfl (by decide)).1,
   (start_failure initialRecognizer .sigFail rfl (by decide)).2.1,
   (start_failure initialRecognizer .sigFail rfl (by decide)).2.2.2.1 rfl⟩

/-! ### Claim C2 -/

/-- C2: for every successfully decoded event, a non-zero server code
invokes `on_fail` exactly once with that code and terminates the loop;
otherwise exactly one slice callback fires according to `slice_type`
(0 begin, 1 change, 2 end, any other value with the final flag unset
start), and when the final flag is set `on_recognition_complete` fires
and the loop terminates, while with it unset the loop continues. -/
theorem read_loop_dispatch (resp : Response) (rest : List InboundMsg) :
    (resp.code ≠ 0 →
      processEvent resp = ([.onFail resp.code], true)
      ∧ readLoop (.event resp :: rest) = [.onFail resp.code])
    ∧ (resp.code = 0 →
      (resp.result.slice_type = 0 → dispatchEvent resp = [.onSentenceBegin])
      ∧ (resp.result.slice_type = 1 →
          dispatchEvent resp = [.onRecognitionResultChange])
      ∧ (resp.result.slice_type = 2 → dispatchEvent resp = [.onSentenceEnd])
      ∧ (resp.result.slice_type ≠ 0 → resp.result.slice_type ≠ 1 →
          resp.result.slice_type ≠ 2 → resp.final ≠ 1 →
          dispatchEvent resp = [.onRecognitionStart])
      ∧ (resp.final = 1 →
          readLoop (.event resp :: rest)
            = dispatchEvent resp ++ [.onRecognitionComplete])
      ∧ (resp.final ≠ 1 →
          readLoop (.event resp :: rest)
            = dispatchEvent resp ++ readLoop rest)) := by
  constructor
  · intro h
    exact ⟨by simp [processEvent, h], by simp [readLoop, processEvent, h]⟩
  · intro h0
    refine ⟨fun h => ?_, fun h => ?_, fun h => ?_, fun h1 h2 h3 h4 => ?_,
      fun hf => ?_, fun hf => ?_⟩
    · simp [dispatchEvent, h]
    · simp [dispatchEvent, h]
    · simp [dispatchEvent, h]
    · simp [dispatchEvent, h1, h2, h3, h4]
    · simp [readLoop, processEvent, h0, hf]
    · simp [readLoop, processEvent, h0, hf]

/-- Witness for C2: a final sentence-end event dispatches its slice
callback followed by completion and terminates the loop. -/
theorem read_loop_dispatch_witness :
    sampleFinalResp.code = 0
    ∧ sampleFinalResp.final = 1
    ∧ readLoop [.event sampleFinalResp]
        = dispatchEvent sampleFinalResp ++ [.onRecognitionComplete] :=
  ⟨rfl, rfl, ((read_loop_dispatch sampleFinalResp []).2 rfl).2.2.2.2.1 rfl⟩

/-! ### Claim C7 -/

/-- C7: a message that fails to decode reports exactly one
ERR_READ_FAILED failure and the loop continues with the remaining
messages; in particular a malformed message followed by a valid final
event still delivers `on_recognition_complete`. -/
theorem malformed_message_continues (rest : List InboundMsg) (resp : Response) :
    readLoop (.malformed :: rest) = .onFail ERR_READ_FAILED :: readLoop rest
    ∧ (resp.code = 0 → resp.final = 1 →
        readLoop [.malformed, .event resp]
          = .onFail ERR_READ_FAILED ::
              (dispatchEvent resp ++ [.onRecognitionComplete])) := by
  refine ⟨rfl, fun h0 hf => ?_⟩
  simp [readLoop, processEvent, h0, hf]

/-- Witness for C7: the malformed-then-final scenario on a concrete
event. -/
theorem malformed_message_continues_witness :
    sampleFinalResp.code = 0
    ∧ sampleFinalResp.final = 1
    ∧ readLoop [.malformed, .event sampleFinalResp]
        = .onFail ERR_READ_FAILED ::
            (dispatchEvent sampleFinalResp ++ [.onRecognitionComplete]) :=
  ⟨rfl, rfl,
   (malformed_message_continues [.event sampleFinalResp] sampleFinalResp).2
     rfl rfl⟩

/-! ### Claim C10 -/

/-- C10: a final event with server code 0 and a recognized slice kind
(0, 1 or 2) produces two callbacks — the slice callback first, then
completion; only with an unrecognized slice kind does it produce
completion alone. -/
theorem final_event_callbacks (resp : Response) (h0 : resp.code = 0)
    (hf : resp.final = 1) :
    (resp.result.slice_type = 0 →
      processEvent resp = ([.onSentenceBegin, .onRecognitionComplete], true))
    ∧ (resp.result.slice_type = 1 →
      processEvent resp
        = ([.onRecognitionResultChange, .onRecognitionComplete], true))
    ∧ (resp.result.slice_type = 2 →
      processEvent resp = ([.onSentenceEnd, .onRecognitionComplete], true))
    ∧ (resp.result.slice_type ≠ 0 → resp.result.slice_type ≠ 1 →
        resp.result.slice_type ≠ 2 →
      processEvent resp = ([.onRecognitionComplete], true)) := by
  refine ⟨fun h => ?_, fun h => ?_, fun h => ?_, fun h1 h2 h3 => ?_⟩
  · simp [processEvent, dispatchEvent, h0, hf, h]
  · simp [processEvent, dispatchEvent, h0, hf, h]
  · simp [processEvent, dispatchEvent, h0, hf, h]
  · simp [processEvent, dispatchEvent, h0, hf, h1, h2, h3]

/-- Witness for C10: the concrete final sentence-end event yields the
two-callback sequence. -/
theorem final_event_callbacks_witness :
    sampleFinalResp.code = 0
    ∧ sampleFinalResp.final = 1
    ∧ processEvent sampleFinalResp
        = ([.onSentenceEnd, .onRecognitionComplete], true) :=
  ⟨rfl, rfl, (final_event_callbacks sampleFinalResp rfl rfl).2.2.1 rfl⟩

end TrtcAsr
